import Mathlib

/-!
Verification of the St Marks prayer-room booking system: a shallow embedding
of the Firestore trigger handlers in `functions/index.js` (booking lifecycle
orchestration, slot availability, credential gateway) and of the client-side
booking form logic in `script.js` (form submission, class join).

Modelling conventions:
* A Firestore document is a `Booking` record whose fields are `Option`-valued,
  so an absent field is `none` (JavaScript `undefined`).
* The store is an association list of `(documentId, Booking)` pairs; trigger
  handlers take the store, the document id and the data snapshots they receive.
* External effects (INLET credential create/revoke calls, mail-queue writes)
  are recorded as an `Ev` event list returned by each handler.
* The placeholder INLET gateway in the source always succeeds once the
  resource-to-lock mapping exists and throws `No INLET lock mapping ...`
  otherwise; the fresh credential it would mint (`Date.now` id, random
  4-digit code) is passed in as an oracle argument `fresh : Cred`.
* `Date` arithmetic (`parseBookingDateTime`, the +1h window) is modelled as
  milliseconds since the epoch computed from the civil date, exactly the
  value `Date.getTime()` yields up to the constant local-timezone offset.
-/

/-- Booking status strings used by the system. -/
inductive Status
  | pending
  | confirmed
  | conflict
  | error
  | cancelled
deriving DecidableEq, Repr

/-- The `inlet` sub-record written on credential issuance
(`{ credentialId, code, issuedAt }`; the server timestamp is not modelled). -/
structure Inlet where
  credentialId : String
  code : String
deriving DecidableEq, Repr

/-- A Firestore booking document. Absent fields are `none`. -/
structure Booking where
  date : String := ""
  time : String := ""
  status : Option Status := none
  name : Option String := none
  email : Option String := none
  phone : Option String := none
  accessCode : Option String := none
  isClass : Option Bool := none
  className : Option String := none
  hostName : Option String := none
  hostEmail : Option String := none
  maxParticipants : Option Int := none
  participants : Option (List String) := none
  participantCount : Option Int := none
  resourceId : Option String := none
  inlet : Option Inlet := none
  errorMsg : Option String := none
deriving DecidableEq, Repr

/-- The credential object returned by the INLET gateway (`{ id, accessCode }`). -/
structure Cred where
  id : String
  accessCode : String
deriving DecidableEq, Repr

/-- External effects performed by the handlers. -/
inductive Ev
  | credCreate (resource : String) (startMs endMs : Int)
      (userName userEmail : Option String)
  | credRevoke (credentialId : String)
  | mail (recipient : Option String) (template : String) (code : Option String)
deriving DecidableEq, Repr

/-- The bookings collection: association list of document id and data. -/
abbrev Store := List (String × Booking)

/-- Read a document by id (`null` when absent). -/
def getDoc : Store → String → Option Booking
  | [], _ => none
  | p :: t, id => if p.1 = id then some p.2 else getDoc t id

/-- `ref.update`: replace the data stored at `id` (ids elsewhere untouched). -/
def setDoc (s : Store) (id : String) (b : Booking) : Store :=
  s.map (fun p => if p.1 = id then (p.1, b) else p)

/-- JavaScript `a || b` on string-valued fields: `undefined` and `""` are falsy. -/
def jsOr (a b : Option String) : Option String :=
  match a with
  | some s => if s = "" then b else some s
  | none => b

/-- `booking.resourceId || 'prayer_room'`. -/
def effResource (b : Booking) : String :=
  match b.resourceId with
  | some r => if r = "" then "prayer_room" else r
  | none => "prayer_room"

/-- JavaScript truthiness of `booking.inlet && booking.inlet.credentialId`. -/
def hasCred (b : Booking) : Bool :=
  match b.inlet with
  | some i => decide (i.credentialId ≠ "")
  | none => false

/-- Days from the civil epoch 1970-01-01 (standard civil-calendar algorithm);
matches the day count underlying `new Date(y, m-1, d, ...)`. -/
def daysFromCivil (y m d : Int) : Int :=
  let yAdj := if m ≤ 2 then y - 1 else y
  let era := (if 0 ≤ yAdj then yAdj else yAdj - 399) / 400
  let yoe := yAdj - era * 400
  let mp := (m + 9).emod 12
  let doy := (153 * mp + 2) / 5 + d - 1
  let doe := yoe * 365 + yoe / 4 - yoe / 100 + doy
  era * 146097 + doe - 719468

/-- `String.prototype.split(sep)` on the underlying character list. -/
def splitChars (sep : Char) : List Char → List (List Char)
  | [] => [[]]
  | c :: rest =>
    let r := splitChars sep rest
    if c = sep then [] :: r
    else
      match r with
      | h :: t => (c :: h) :: t
      | [] => [[c]]

def charDigit? (c : Char) : Option Nat :=
  if c = '0' then some 0 else if c = '1' then some 1
  else if c = '2' then some 2 else if c = '3' then some 3
  else if c = '4' then some 4 else if c = '5' then some 5
  else if c = '6' then some 6 else if c = '7' then some 7
  else if c = '8' then some 8 else if c = '9' then some 9 else none

def parseNatCore : List Char → Nat → Option Nat
  | [], acc => some acc
  | c :: rest, acc =>
    match charDigit? c with
    | some d => parseNatCore rest (acc * 10 + d)
    | none => none

/-- JavaScript `Number(s)` restricted to the decimal-integer strings the
date and time fields carry; `none` is `NaN`. -/
def parseIntChars : List Char → Option Int
  | [] => none
  | '-' :: rest =>
    match rest with
    | [] => none
    | _ => (parseNatCore rest 0).map (fun n => -(n : Int))
  | l => (parseNatCore l 0).map (fun n => (n : Int))

/-- `parseBookingDateTime(dateStr, timeStr).getTime()`: split `"YYYY-MM-DD"`
on `-` and `"HH:MM"` on `:`, build a date, return epoch milliseconds.
`none` models an invalid date (whose `toISOString()` throws). -/
def parseBookingDateTime (dateStr timeStr : String) : Option Int :=
  match (splitChars '-' dateStr.data).map parseIntChars,
        (splitChars ':' timeStr.data).map parseIntChars with
  | [some y, some mo, some d], [some h, some mi] =>
    let ym := y * 12 + (mo - 1)
    let y2 := ym.fdiv 12
    let m2 := ym.emod 12 + 1
    some ((daysFromCivil y2 m2 d * 1440 + h * 60 + mi) * 60000)
  | _, _ => none

/-- The static `RESOURCE_MAPPING` table: Firestore resourceId to INLET lock id. -/
def RESOURCE_MAPPING (resourceId : String) : Option String :=
  if resourceId = "prayer_room" then some "YOUR_INLET_LOCK_ID" else none

/-- `createInletCredential`: throws when the resource has no lock mapping;
otherwise the placeholder implementation returns the fresh credential. -/
def createInletCredential (fresh : Cred) (resourceId : String) :
    Except String Cred :=
  match RESOURCE_MAPPING resourceId with
  | none => Except.error ("No INLET lock mapping for resource: " ++ resourceId)
  | some _ => Except.ok fresh

/-- `status in ['confirmed', 'pending']` — the query filter of `validateSlotFree`. -/
def activeStatus (st : Option Status) : Bool :=
  st == some Status.confirmed || st == some Status.pending

/-- `validateSlotFree(date, time, excludeBookingId)`: query bookings with the
same date and time and status confirmed or pending; the slot is free iff
every match is the excluded document itself. -/
def validateSlotFree (store : Store) (date time excludeBookingId : String) :
    Bool :=
  (store.filter (fun p =>
      p.2.date == date && p.2.time == time && activeStatus p.2.status)).all
    (fun p => p.1 == excludeBookingId)

/-- `onBookingCreated`: the create-trigger handler. Returns the store after
the handler's writes and the list of external effects, in call order. -/
def onBookingCreated (store : Store) (bookingId : String) (fresh : Cred) :
    Store × List Ev :=
  match getDoc store bookingId with
  | none => (store, [])
  | some booking =>
    if booking.status ≠ some Status.pending then (store, [])
    else if validateSlotFree store booking.date booking.time bookingId = false
    then
      (setDoc store bookingId
        { booking with
          status := some Status.conflict,
          errorMsg := some "Time slot is no longer available" }, [])
    else
      match parseBookingDateTime booking.date booking.time with
      | none =>
        (setDoc store bookingId
          { booking with
            status := some Status.error,
            errorMsg := some "Invalid time value" }, [])
      | some startMs =>
        match createInletCredential fresh (effResource booking) with
        | Except.error msg =>
          (setDoc store bookingId
            { booking with
              status := some Status.error, errorMsg := some msg }, [])
        | Except.ok cred =>
          (setDoc store bookingId
            { booking with
              status := some Status.confirmed,
              inlet := some { credentialId := cred.id, code := cred.accessCode } },
           [Ev.credCreate (effResource booking) startMs (startMs + 3600000)
              (jsOr booking.name booking.hostName)
              (jsOr booking.email booking.hostEmail),
            Ev.mail (jsOr booking.email booking.hostEmail)
              "booking-confirmation" (some cred.accessCode)])

/-- `handleBookingCancellation(bookingId, before)`: revoke the credential when
present, then queue the cancellation email. The stored record is not touched. -/
def handleBookingCancellation (before : Booking) : List Ev :=
  (match before.inlet with
   | some i => if i.credentialId ≠ "" then [Ev.credRevoke i.credentialId] else []
   | none => []) ++
  [Ev.mail (jsOr before.email before.hostEmail) "booking-cancellation" none]

/-- `handleTimeChange(bookingId, before, after)`: when a credential exists,
revoke it, recompute the window from the new date and time, create a
replacement credential, write the new `inlet` fields, queue the update email.
A parse failure or an unmapped resource throws after the revoke, leaving the
store unchanged. -/
def handleTimeChange (store : Store) (bookingId : String)
    (before after : Booking) (fresh : Cred) : Store × List Ev :=
  match before.inlet with
  | none => (store, [])
  | some i =>
    if i.credentialId = "" then (store, [])
    else
      match parseBookingDateTime after.date after.time with
      | none => (store, [Ev.credRevoke i.credentialId])
      | some startMs =>
        match createInletCredential fresh (effResource after) with
        | Except.error _ => (store, [Ev.credRevoke i.credentialId])
        | Except.ok cred =>
          (setDoc store bookingId
            (match getDoc store bookingId with
             | some cur =>
               { cur with
                 inlet := some { credentialId := cred.id, code := cred.accessCode } }
             | none => { inlet := some { credentialId := cred.id, code := cred.accessCode } }),
           [Ev.credRevoke i.credentialId,
            Ev.credCreate (effResource after) startMs (startMs + 3600000)
              (jsOr after.name after.hostName)
              (jsOr after.email after.hostEmail),
            Ev.mail (jsOr after.email after.hostEmail)
              "booking-update" (some cred.accessCode)])

/-- `onBookingUpdated`: cancellation is checked first, then date/time change. -/
def onBookingUpdated (store : Store) (bookingId : String)
    (before after : Booking) (fresh : Cred) : Store × List Ev :=
  if after.status = some Status.cancelled ∧ before.status ≠ some Status.cancelled
  then (store, handleBookingCancellation before)
  else if before.date ≠ after.date ∨ before.time ≠ after.time then
    handleTimeChange store bookingId before after fresh
  else (store, [])

/-- `onBookingDeleted`: revoke the credential when one is present. -/
def onBookingDeleted (booking : Booking) : List Ev :=
  match booking.inlet with
  | some i => if i.credentialId ≠ "" then [Ev.credRevoke i.credentialId] else []
  | none => []

/-- JavaScript `a >= b` where either side may be `undefined` (`NaN` compares
false): the capacity check `participantCount >= maxParticipants`. -/
def jsGe (a b : Option Int) : Bool :=
  match a, b with
  | some x, some y => decide (y ≤ x)
  | _, _ => false

/-- `handleJoinClass` (client): look the class up by id, reject when missing,
not a class, or full; otherwise append the joiner and store the new
participant list and its length. Errors are the thrown messages. -/
def handleJoinClass (store : Store) (bookingId joinName : String) :
    Except String Store :=
  if joinName = "" ∨ bookingId = "" then Except.ok store
  else
    match getDoc store bookingId with
    | none => Except.error "Booking not found"
    | some booking =>
      if booking.isClass ≠ some true then Except.error "Booking not found"
      else if jsGe booking.participantCount booking.maxParticipants then
        Except.error "Class is full"
      else
        let updatedParticipants :=
          (match booking.participants with
           | some l => l
           | none => []) ++ [joinName]
        Except.ok (setDoc store bookingId
          { booking with
            participants := some updatedParticipants,
            participantCount := some (updatedParticipants.length : Int) })

/-- The booking form's state at submission time. `maxInput` is the
`parseInt` result of the max-participants field (`none` for `NaN`);
`clientCode` is the 4-digit string `generateAccessCode()` returned. -/
structure SubmitInput where
  slotDate : String
  slotTime : String
  isClassBooking : Bool
  email : String
  phone : String
  name : String
  className : String
  hostName : String
  maxInput : Option Int
  clientCode : String
deriving DecidableEq, Repr

/-- `parseInt(...) || 8`: `NaN` and `0` fall back to the default. -/
def jsOrIntDefault (v : Option Int) (d : Int) : Int :=
  match v with
  | some x => if x = 0 then d else x
  | none => d

/-- The `firestoreBooking` object `handleBookingSubmit` writes to the store
(when the store is available); `none` when client-side validation rejects
the form without writing. -/
def mkFirestoreBooking (inp : SubmitInput) : Option Booking :=
  if inp.isClassBooking then
    if inp.className = "" ∨ inp.hostName = "" then none
    else some
      { date := inp.slotDate,
        time := inp.slotTime,
        isClass := some true,
        className := some inp.className,
        hostName := some inp.hostName,
        hostEmail := some inp.email,
        maxParticipants := some (jsOrIntDefault inp.maxInput 8),
        participants := some [inp.hostName],
        participantCount := some 1 }
  else
    if inp.name = "" then none
    else some
      { date := inp.slotDate,
        time := inp.slotTime,
        name := some inp.name,
        isClass := some false }

/-- The access code the success modal displays: the locally generated
`accessCode` variable, never a store or gateway value. -/
def displayedAccessCode (inp : SubmitInput) : String :=
  inp.clientCode

/-- System-level operations: a client write to the bookings collection
followed immediately by the corresponding trigger handler (the serial,
per-record-ordered delivery the platform guarantees). -/
inductive Op
  | create (id : String) (b : Booking) (fresh : Cred)
  | update (id : String) (after : Booking) (fresh : Cred)
  | del (id : String)
deriving Repr

/-- A system state: the bookings collection plus the log of external effects. -/
abbrev SysState := Store × List Ev

/-- Apply one operation: perform the client write, then run the trigger. -/
def stepOp (s : SysState) (op : Op) : SysState :=
  match op with
  | Op.create id b fresh =>
    let store1 := s.1 ++ [(id, b)]
    let r := onBookingCreated store1 id fresh
    (r.1, s.2 ++ r.2)
  | Op.update id after fresh =>
    match getDoc s.1 id with
    | none => s
    | some before =>
      let store1 := setDoc s.1 id after
      let r := onBookingUpdated store1 id before after fresh
      (r.1, s.2 ++ r.2)
  | Op.del id =>
    match getDoc s.1 id with
    | none => s
    | some b => (s.1.filter (fun p => p.1 ≠ id), s.2 ++ onBookingDeleted b)

/-- Run a sequence of operations from the empty system. -/
def runOps (ops : List Op) : SysState :=
  ops.foldl stepOp ([], [])

/-- How many bookings with status pending or confirmed occupy a slot. -/
def activeCount (store : Store) (date time : String) : Nat :=
  (store.filter (fun p =>
      p.2.date == date && p.2.time == time && activeStatus p.2.status)).length

/-- Event classifiers used to count gateway calls and notifications. -/
def isCredCreate : Ev → Bool
  | Ev.credCreate _ _ _ _ _ => true
  | _ => false

def isCredRevoke : Ev → Bool
  | Ev.credRevoke _ => true
  | _ => false

def isMailOf (template : String) : Ev → Bool
  | Ev.mail _ t _ => t == template
  | _ => false

/-! ## Helper lemmas -/

theorem getDoc_setDoc {s : Store} {id : String} {b : Booking} (b' : Booking)
    (h : getDoc s id = some b) : getDoc (setDoc s id b') id = some b' := by
  induction s with
  | nil => simp [getDoc] at h
  | cons p t ih =>
    by_cases hp : p.1 = id
    · simp [getDoc, setDoc, hp]
    · have h' : getDoc t id = some b := by simpa [getDoc, hp] using h
      simpa [getDoc, setDoc, hp] using ih h'

theorem validateSlotFree_false_iff (store : Store) (d t ex : String) :
    validateSlotFree store d t ex = false ↔
      ∃ p ∈ store, p.2.date = d ∧ p.2.time = t ∧
        activeStatus p.2.status = true ∧ p.1 ≠ ex := by
  unfold validateSlotFree
  rw [← Bool.not_eq_true, List.all_eq_true]
  push_neg
  constructor
  · rintro ⟨p, hp, hne⟩
    rw [List.mem_filter] at hp
    obtain ⟨hmem, hcond⟩ := hp
    simp only [Bool.and_eq_true, beq_iff_eq] at hcond
    refine ⟨p, hmem, ?_, ?_, ?_, ?_⟩
    · tauto
    · tauto
    · tauto
    · simpa using hne
  · rintro ⟨p, hmem, hd, ht, ha, hne⟩
    refine ⟨p, ?_, by simpa using hne⟩
    rw [List.mem_filter]
    exact ⟨hmem, by simp [hd, ht, ha]⟩

theorem validateSlotFree_true_iff (store : Store) (d t ex : String) :
    validateSlotFree store d t ex = true ↔
      ∀ p ∈ store, p.2.date = d → p.2.time = t →
        activeStatus p.2.status = true → p.1 = ex := by
  constructor
  · intro h p hp hd ht ha
    by_contra hne
    have hfalse : validateSlotFree store d t ex = false :=
      (validateSlotFree_false_iff store d t ex).2 ⟨p, hp, hd, ht, ha, hne⟩
    rw [h] at hfalse
    exact Bool.noConfusion hfalse
  · intro h
    cases hv : validateSlotFree store d t ex with
    | true => rfl
    | false =>
      obtain ⟨p, hp, hd, ht, ha, hne⟩ :=
        (validateSlotFree_false_iff store d t ex).1 hv
      exact absurd (h p hp hd ht ha) hne

/-! ## Claim theorems -/

/-- C8. Availability check semantics: `validateSlotFree` examines the bookings
matching `(date, time)` whose status is confirmed or pending, and returns
`false` if and only if some matching record's id differs from
`excludeBookingId` (so a reschedule ignores its own prior record). -/
theorem validateSlotFree_spec (store : Store) (date time excludeBookingId : String) :
    validateSlotFree store date time excludeBookingId = false ↔
      ∃ p ∈ store, p.2.date = date ∧ p.2.time = time ∧
        (p.2.status = some Status.confirmed ∨ p.2.status = some Status.pending) ∧
        p.1 ≠ excludeBookingId := by
  rw [validateSlotFree_false_iff]
  constructor
  · rintro ⟨p, hp, hd, ht, ha, hne⟩
    refine ⟨p, hp, hd, ht, ?_, hne⟩
    simpa [activeStatus, Bool.or_eq_true, beq_iff_eq] using ha
  · rintro ⟨p, hp, hd, ht, ha, hne⟩
    refine ⟨p, hp, hd, ht, ?_, hne⟩
    simpa [activeStatus, Bool.or_eq_true, beq_iff_eq] using ha

/-- C5. Conflict handling on creation: a pending booking created for a slot
already occupied by another booking with status confirmed or pending is
marked `status = conflict` with `error = "Time slot is no longer available"`,
and the handler stops: no credential-gateway call and no notification. -/
theorem create_handler_conflict_on_taken_slot
    (store : Store) (id : String) (b : Booking) (fresh : Cred)
    (id2 : String) (b2 : Booking)
    (hget : getDoc store id = some b)
    (hpend : b.status = some Status.pending)
    (hmem : (id2, b2) ∈ store)
    (hne : id2 ≠ id)
    (hdate : b2.date = b.date)
    (htime : b2.time = b.time)
    (hactive : b2.status = some Status.confirmed ∨ b2.status = some Status.pending) :
    onBookingCreated store id fresh =
      (setDoc store id
        { b with
          status := some Status.conflict,
          errorMsg := some "Time slot is no longer available" }, []) := by
  have hfree : validateSlotFree store b.date b.time id = false := by
    rw [validateSlotFree_false_iff]
    exact ⟨(id2, b2), hmem, hdate, htime,
      by simpa [activeStatus, Bool.or_eq_true, beq_iff_eq] using hactive, hne⟩
  unfold onBookingCreated
  rw [hget]
  simp [hpend, hfree]

/-- A confirmed booking occupying 2026-01-16 14:00. -/
def c5A : Booking :=
  { date := "2026-01-16", time := "14:00", status := some Status.confirmed }

/-- A second, pending booking created for the same slot. -/
def c5B : Booking :=
  { date := "2026-01-16", time := "14:00", status := some Status.pending,
    name := some "Bob" }

def c5Store : Store := [("A", c5A), ("B", c5B)]

/-- Closed instance of the C5 theorem, with all hypotheses discharged at a
concrete store holding a confirmed booking for the contested slot. -/
theorem create_handler_conflict_on_taken_slot_witness :
    onBookingCreated c5Store "B" { id := "c1", accessCode := "1234" } =
      (setDoc c5Store "B"
        { c5B with
          status := some Status.conflict,
          errorMsg := some "Time slot is no longer available" }, []) :=
  create_handler_conflict_on_taken_slot c5Store "B" c5B
    { id := "c1", accessCode := "1234" } "A" c5A (by decide) (by decide)
    (by decide) (by decide) (by decide) (by decide) (by decide)

/-- C4. Error containment in the create handler: when processing of a pending
booking fails after the availability check — an unmapped resource thrown by
the credential gateway, or an invalid date whose ISO conversion throws — the
record is updated to `status = error` with the failure message captured in
the `error` field (so it is never left in `pending`), and no notification is
enqueued (the effect list is empty). -/
theorem create_handler_error_containment
    (store : Store) (id : String) (b : Booking) (fresh : Cred)
    (hget : getDoc store id = some b)
    (hpend : b.status = some Status.pending)
    (hfree : validateSlotFree store b.date b.time id = true) :
    (∀ startMs : Int, parseBookingDateTime b.date b.time = some startMs →
      RESOURCE_MAPPING (effResource b) = none →
      onBookingCreated store id fresh =
        (setDoc store id
          { b with
            status := some Status.error,
            errorMsg :=
              some ("No INLET lock mapping for resource: " ++ effResource b) },
         [])
      ∧ (getDoc (onBookingCreated store id fresh).1 id).map Booking.status =
          some (some Status.error))
    ∧ (parseBookingDateTime b.date b.time = none →
      onBookingCreated store id fresh =
        (setDoc store id
          { b with
            status := some Status.error,
            errorMsg := some "Invalid time value" }, [])
      ∧ (getDoc (onBookingCreated store id fresh).1 id).map Booking.status =
          some (some Status.error)) := by
  have hProj : ∀ b' : Booking,
      (getDoc (setDoc store id b') id).map Booking.status = some b'.status := by
    intro b'
    rw [getDoc_setDoc b' hget]
    rfl
  constructor
  · intro startMs hparse hmap
    have heq : onBookingCreated store id fresh =
        (setDoc store id
          { b with
            status := some Status.error,
            errorMsg :=
              some ("No INLET lock mapping for resource: " ++ effResource b) },
         []) := by
      unfold onBookingCreated
      rw [hget]
      simp [hpend, hfree, hparse, createInletCredential, hmap]
    refine ⟨heq, ?_⟩
    rw [heq]
    simpa using hProj _
  · intro hparse
    have heq : onBookingCreated store id fresh =
        (setDoc store id
          { b with
            status := some Status.error,
            errorMsg := some "Invalid time value" }, []) := by
      unfold onBookingCreated
      rw [hget]
      simp [hpend, hfree, hparse]
    refine ⟨heq, ?_⟩
    rw [heq]
    simpa using hProj _

/-- A pending booking whose `resourceId` has no INLET lock mapping. -/
def c4Doc : Booking :=
  { date := "2026-01-16", time := "14:00", status := some Status.pending,
    name := some "Ann", email := some "a@x.com", resourceId := some "chapel" }

def c4Store : Store := [("E1", c4Doc)]

/-- Closed instance of the C4 theorem: an unmapped resource leaves the record
in `status = error` with the thrown message, and enqueues nothing. -/
theorem create_handler_error_containment_witness :
    onBookingCreated c4Store "E1" { id := "cE", accessCode := "1111" } =
      (setDoc c4Store "E1"
        { c4Doc with
          status := some Status.error,
          errorMsg :=
            some ("No INLET lock mapping for resource: " ++ effResource c4Doc) },
       [])
    ∧ (getDoc (onBookingCreated c4Store "E1"
        { id := "cE", accessCode := "1111" }).1 "E1").map Booking.status =
        some (some Status.error) :=
  (create_handler_error_containment c4Store "E1" c4Doc
      { id := "cE", accessCode := "1111" } (by decide) (by decide) (by decide)).1
    1768572000000 (by decide) (by decide)

/-- C7. Cancellation precedence: when an update turns `status` to `cancelled`
(from a non-cancelled state), the handler runs the cancellation path only —
regardless of any simultaneous date/time change: it revokes the credential
when one is present, enqueues exactly one booking-cancellation notification,
makes no credential create call, and writes nothing back to the store. -/
theorem cancellation_takes_precedence
    (store : Store) (id : String) (before after : Booking) (fresh : Cred)
    (hcanc : after.status = some Status.cancelled)
    (hprev : before.status ≠ some Status.cancelled) :
    onBookingUpdated store id before after fresh =
      (store, handleBookingCancellation before)
    ∧ (∀ i : Inlet, before.inlet = some i → i.credentialId ≠ "" →
        handleBookingCancellation before =
          [Ev.credRevoke i.credentialId,
           Ev.mail (jsOr before.email before.hostEmail)
             "booking-cancellation" none])
    ∧ (before.inlet = none →
        handleBookingCancellation before =
          [Ev.mail (jsOr before.email before.hostEmail)
            "booking-cancellation" none])
    ∧ ((handleBookingCancellation before).filter isCredCreate).length = 0
    ∧ ((handleBookingCancellation before).filter
        (isMailOf "booking-cancellation")).length = 1 := by
  refine ⟨?_, ?_, ?_, ?_, ?_⟩
  · unfold onBookingUpdated
    simp [hcanc, hprev]
  · intro i hi hne
    unfold handleBookingCancellation
    rw [hi]
    simp [hne]
  · intro h0
    unfold handleBookingCancellation
    rw [h0]
    rfl
  · cases hi : before.inlet with
    | none => simp [handleBookingCancellation, hi, isCredCreate]
    | some i =>
      by_cases hne : i.credentialId = ""
      · simp [handleBookingCancellation, hi, hne, isCredCreate]
      · simp [handleBookingCancellation, hi, hne, isCredCreate]
  · cases hi : before.inlet with
    | none => simp [handleBookingCancellation, hi, isMailOf]
    | some i =>
      by_cases hne : i.credentialId = ""
      · simp [handleBookingCancellation, hi, hne, isMailOf, isCredRevoke]
      · simp [handleBookingCancellation, hi, hne, isMailOf, isCredRevoke]

/-- A confirmed booking holding a credential, about to be cancelled. -/
def c7Before : Booking :=
  { date := "2026-01-16", time := "14:00", status := some Status.confirmed,
    name := some "Uma", email := some "u@x.com",
    inlet := some { credentialId := "cr77", code := "7777" } }

/-- The update cancels the booking and simultaneously changes the date. -/
def c7After : Booking :=
  { c7Before with status := some Status.cancelled, date := "2026-01-17" }

def c7Store : Store := [("U1", c7After)]

/-- Closed instance of the C7 theorem: even with a simultaneous date change,
the cancellation path runs alone, revoking the prior credential and queueing
one cancellation notification. -/
theorem cancellation_takes_precedence_witness :
    onBookingUpdated c7Store "U1" c7Before c7After
        { id := "cNew", accessCode := "9999" } =
      (c7Store, handleBookingCancellation c7Before)
    ∧ handleBookingCancellation c7Before =
        [Ev.credRevoke "cr77",
         Ev.mail (some "u@x.com") "booking-cancellation" none] := by
  have h := cancellation_takes_precedence c7Store "U1" c7Before c7After
    { id := "cNew", accessCode := "9999" } (by decide) (by decide)
  exact ⟨h.1, by
    have h2 := h.2.1 { credentialId := "cr77", code := "7777" }
      (by decide) (by decide)
    simpa using h2⟩

/-- C6. Reschedule replaces, never duplicates, credentials: on an update that
changes `date` or `time` (and does not newly cancel), a booking holding a
credential gets exactly one revoke of the old `credentialId`, exactly one
create over the new 60-minute window, the new credential fields written over
the old ones (the record holds a single credential id), and one
booking-update notification; a booking without a credential triggers no
credential action at all. -/
theorem reschedule_replaces_credential
    (store : Store) (id : String) (before after cur : Booking) (fresh : Cred)
    (hnc : ¬(after.status = some Status.cancelled ∧
              before.status ≠ some Status.cancelled))
    (hdiff : before.date ≠ after.date ∨ before.time ≠ after.time)
    (hget : getDoc store id = some cur) :
    (∀ i : Inlet, before.inlet = some i → i.credentialId ≠ "" →
      ∀ startMs : Int,
        parseBookingDateTime after.date after.time = some startMs →
        effResource after = "prayer_room" →
        onBookingUpdated store id before after fresh =
          (setDoc store id
            { cur with
              inlet := some { credentialId := fresh.id, code := fresh.accessCode } },
           [Ev.credRevoke i.credentialId,
            Ev.credCreate "prayer_room" startMs (startMs + 3600000)
              (jsOr after.name after.hostName) (jsOr after.email after.hostEmail),
            Ev.mail (jsOr after.email after.hostEmail)
              "booking-update" (some fresh.accessCode)])
        ∧ (getDoc (onBookingUpdated store id before after fresh).1 id).map
            Booking.inlet =
            some (some { credentialId := fresh.id, code := fresh.accessCode })
        ∧ ((onBookingUpdated store id before after fresh).2.filter
            isCredRevoke).length = 1
        ∧ ((onBookingUpdated store id before after fresh).2.filter
            isCredCreate).length = 1
        ∧ ((onBookingUpdated store id before after fresh).2.filter
            (isMailOf "booking-update")).length = 1)
    ∧ (before.inlet = none →
        onBookingUpdated store id before after fresh = (store, [])) := by
  constructor
  · intro i hi hne startMs hparse hres
    have heq : onBookingUpdated store id before after fresh =
        (setDoc store id
          { cur with
            inlet := some { credentialId := fresh.id, code := fresh.accessCode } },
         [Ev.credRevoke i.credentialId,
          Ev.credCreate "prayer_room" startMs (startMs + 3600000)
            (jsOr after.name after.hostName) (jsOr after.email after.hostEmail),
          Ev.mail (jsOr after.email after.hostEmail)
            "booking-update" (some fresh.accessCode)]) := by
      unfold onBookingUpdated
      rw [if_neg hnc, if_pos hdiff]
      unfold handleTimeChange
      rw [hi]
      simp [hne, hparse, hres, createInletCredential, RESOURCE_MAPPING, hget]
    refine ⟨heq, ?_, ?_, ?_, ?_⟩
    · rw [heq]
      rw [getDoc_setDoc _ hget]
      rfl
    · rw [heq]
      simp [isCredRevoke, isCredCreate, isMailOf]
    · rw [heq]
      simp [isCredRevoke, isCredCreate, isMailOf]
    · rw [heq]
      simp [isCredRevoke, isCredCreate, isMailOf]
  · intro h0
    unfold onBookingUpdated
    rw [if_neg hnc, if_pos hdiff]
    unfold handleTimeChange
    rw [h0]

/-- The confirmed booking before its reschedule from 14:00 to 15:00. -/
def c6Before : Booking :=
  { date := "2026-01-16", time := "14:00", status := some Status.confirmed,
    name := some "Rae", email := some "r@x.com",
    inlet := some { credentialId := "oldC", code := "1111" } }

/-- The rescheduled document the client wrote (only `time` changed). -/
def c6After : Booking := { c6Before with time := "15:00" }

def c6Store : Store := [("R1", c6After)]

/-- Closed instance of the C6 theorem: rescheduling a confirmed booking
revokes `oldC` once, creates one replacement credential over the 15:00-16:00
window, stores only the new credential id, and queues one update email. -/
theorem reschedule_replaces_credential_witness :
    onBookingUpdated c6Store "R1" c6Before c6After
        { id := "newC", accessCode := "2222" } =
      (setDoc c6Store "R1"
        { c6After with
          inlet := some { credentialId := "newC", code := "2222" } },
       [Ev.credRevoke "oldC",
        Ev.credCreate "prayer_room" 1768575600000 1768579200000
          (some "Rae") (some "r@x.com"),
        Ev.mail (some "r@x.com") "booking-update" (some "2222")])
    ∧ (getDoc (onBookingUpdated c6Store "R1" c6Before c6After
        { id := "newC", accessCode := "2222" }).1 "R1").map Booking.inlet =
        some (some { credentialId := "newC", code := "2222" }) := by
  have h := reschedule_replaces_credential c6Store "R1" c6Before c6After c6After
    { id := "newC", accessCode := "2222" } (by decide) (by decide) (by decide)
  have h2 := h.1 { credentialId := "oldC", code := "1111" } (by decide)
    (by decide) 1768575600000 (by decide) (by decide)
  exact ⟨h2.1, h2.2.1⟩

/-- A trace reaching a state with two confirmed bookings on one slot: Alice
books 14:00 (confirmed), Bob books 15:00 (confirmed), then Alice's booking is
rescheduled to 15:00 — `handleTimeChange` re-issues the credential without
any availability check. -/
def c1Pending : Booking :=
  { date := "2026-01-16", time := "14:00", status := some Status.pending,
    name := some "Alice", email := some "a@x.com" }

def c1PendingB : Booking :=
  { date := "2026-01-16", time := "15:00", status := some Status.pending,
    name := some "Bob", email := some "b@x.com" }

def c1Stored : Booking :=
  { c1Pending with
    status := some Status.confirmed,
    inlet := some { credentialId := "credA", code := "1111" } }

def c1Trace : List Op :=
  [Op.create "A" c1Pending { id := "credA", accessCode := "1111" },
   Op.create "B" c1PendingB { id := "credB", accessCode := "2222" },
   Op.update "A" { c1Stored with time := "15:00" }
     { id := "credC", accessCode := "3333" }]

/-- C1 fails on the code: after the trace `c1Trace` — every write processed
by its trigger handler, strictly serially — the store holds two distinct
bookings, both `status = confirmed`, for the same `(date, time)` slot
2026-01-16 15:00 (and the default resource). The reschedule path performs no
availability check, so the no-double-booking invariant is violated. -/
theorem double_confirmed_reachable :
    activeCount (runOps c1Trace).1 "2026-01-16" "15:00" = 2
    ∧ (getDoc (runOps c1Trace).1 "A").map Booking.status =
        some (some Status.confirmed)
    ∧ (getDoc (runOps c1Trace).1 "B").map Booking.status =
        some (some Status.confirmed)
    ∧ (getDoc (runOps c1Trace).1 "A").map Booking.date = some "2026-01-16"
    ∧ (getDoc (runOps c1Trace).1 "B").map Booking.date = some "2026-01-16"
    ∧ (getDoc (runOps c1Trace).1 "A").map Booking.time = some "15:00"
    ∧ (getDoc (runOps c1Trace).1 "B").map Booking.time = some "15:00" := by
  decide

/-- C1, amended to what the code guarantees: the on-create handler confirms a
pending booking only when, at the moment it runs, no other booking with
status pending or confirmed occupies the same `(date, time)` slot. (The
global at-every-instant invariant fails: see the reschedule counterexample.) -/
theorem create_handler_no_double_confirm
    (store : Store) (id : String) (b : Booking) (fresh : Cred)
    (hget : getDoc store id = some b)
    (hpend : b.status = some Status.pending)
    (hconf : (getDoc (onBookingCreated store id fresh).1 id).map Booking.status =
      some (some Status.confirmed)) :
    ∀ p ∈ store, p.1 ≠ id → p.2.date = b.date → p.2.time = b.time →
      activeStatus p.2.status = false := by
  cases hv : validateSlotFree store b.date b.time id with
  | false =>
    exfalso
    have heq : onBookingCreated store id fresh =
        (setDoc store id
          { b with
            status := some Status.conflict,
            errorMsg := some "Time slot is no longer available" }, []) := by
      unfold onBookingCreated
      rw [hget]
      simp [hpend, hv]
    rw [heq] at hconf
    rw [getDoc_setDoc _ hget] at hconf
    simp at hconf
  | true =>
    intro p hp hne hd ht
    by_contra hact
    simp only [Bool.not_eq_false] at hact
    exact hne ((validateSlotFree_true_iff store b.date b.time id).1 hv p hp hd ht hact)

def c1WDoc : Booking :=
  { date := "2026-02-02", time := "10:00", status := some Status.pending,
    name := some "Wit", email := some "w@x.com" }

def c1WStore : Store := [("W1", c1WDoc)]

/-- Closed instance of the amended C1 theorem at a store where the handler
does confirm: the slot held no other active booking. -/
theorem create_handler_no_double_confirm_witness :
    (getDoc (onBookingCreated c1WStore "W1"
        { id := "cW", accessCode := "4444" }).1 "W1").map Booking.status =
      some (some Status.confirmed)
    ∧ (∀ p ∈ c1WStore, p.1 ≠ "W1" → p.2.date = c1WDoc.date →
        p.2.time = c1WDoc.time → activeStatus p.2.status = false) :=
  ⟨by decide,
   create_handler_no_double_confirm c1WStore "W1" c1WDoc
     { id := "cW", accessCode := "4444" } (by decide) (by decide) (by decide)⟩

/-- A pending booking that the create trigger confirms with credential
`credA`, then an update cancels it. -/
def c2Pending : Booking :=
  { date := "2026-01-16", time := "14:00", status := some Status.pending,
    name := some "Alice", email := some "a@x.com" }

def c2Cancelled : Booking :=
  { c2Pending with
    status := some Status.cancelled,
    inlet := some { credentialId := "credA", code := "1111" } }

def c2Trace : List Op :=
  [Op.create "A" c2Pending { id := "credA", accessCode := "1111" },
   Op.update "A" c2Cancelled { id := "credX", accessCode := "9999" }]

/-- C2 fails on the code: after a confirmed booking is cancelled, the
credential was revoked, but the cancellation handler never clears the
`inlet` field and never deletes the record — the cancelled record still
carries the credential sub-record, so `credential` present does not imply
`status = confirmed`. -/
theorem cancelled_booking_keeps_credential :
    (getDoc (runOps c2Trace).1 "A").map Booking.status =
      some (some Status.cancelled)
    ∧ (getDoc (runOps c2Trace).1 "A").map Booking.inlet =
        some (some { credentialId := "credA", code := "1111" })
    ∧ Ev.credRevoke "credA" ∈ (runOps c2Trace).2 := by
  decide

/-- C2, amended to what the code does: on a transition to `cancelled` the
handler invokes `revokeCredential` exactly once with the prior
`credentialId` when one exists (and only then), enqueues the cancellation
notification, and leaves the stored record — including its `inlet`
credential field — unmodified; on deletion the handler revokes exactly once
when a credential exists and does nothing otherwise. -/
theorem credential_revoked_on_cancel_and_delete
    (store : Store) (id : String) (before after bDel : Booking) (fresh : Cred)
    (i : Inlet)
    (hcanc : after.status = some Status.cancelled)
    (hprev : before.status ≠ some Status.cancelled) :
    (before.inlet = some i → i.credentialId ≠ "" →
      onBookingUpdated store id before after fresh =
        (store,
         [Ev.credRevoke i.credentialId,
          Ev.mail (jsOr before.email before.hostEmail)
            "booking-cancellation" none]))
    ∧ (before.inlet = none →
      onBookingUpdated store id before after fresh =
        (store,
         [Ev.mail (jsOr before.email before.hostEmail)
           "booking-cancellation" none]))
    ∧ (bDel.inlet = some i → i.credentialId ≠ "" →
      onBookingDeleted bDel = [Ev.credRevoke i.credentialId])
    ∧ (bDel.inlet = none → onBookingDeleted bDel = []) := by
  refine ⟨?_, ?_, ?_, ?_⟩
  · intro hi hne
    unfold onBookingUpdated handleBookingCancellation
    rw [if_pos ⟨hcanc, hprev⟩, hi]
    simp [hne]
  · intro h0
    unfold onBookingUpdated handleBookingCancellation
    rw [if_pos ⟨hcanc, hprev⟩, h0]
    rfl
  · intro hi hne
    unfold onBookingDeleted
    rw [hi]
    simp [hne]
  · intro h0
    unfold onBookingDeleted
    rw [h0]

/-- The cancelled-update pair used to instantiate the amended C2 theorem. -/
def c2WBefore : Booking :=
  { date := "2026-03-03", time := "12:00", status := some Status.confirmed,
    name := some "Vic", email := some "v@x.com",
    inlet := some { credentialId := "crV", code := "3131" } }

def c2WAfter : Booking := { c2WBefore with status := some Status.cancelled }

/-- Closed instance of the amended C2 theorem: cancelling revokes `crV`
exactly once and leaves the store (and its `inlet` field) untouched;
deleting the same record revokes `crV` once more. -/
theorem credential_revoked_on_cancel_and_delete_witness :
    onBookingUpdated [("V1", c2WAfter)] "V1" c2WBefore c2WAfter
        { id := "crZ", accessCode := "0000" } =
      ([("V1", c2WAfter)],
       [Ev.credRevoke "crV",
        Ev.mail (some "v@x.com") "booking-cancellation" none])
    ∧ onBookingDeleted c2WAfter = [Ev.credRevoke "crV"] := by
  have h := credential_revoked_on_cancel_and_delete [("V1", c2WAfter)] "V1"
    c2WBefore c2WAfter c2WAfter { id := "crZ", accessCode := "0000" }
    { credentialId := "crV", code := "3131" } (by decide) (by decide)
  exact ⟨by simpa using h.1 (by decide) (by decide),
         by simpa using h.2.2.1 (by decide) (by decide)⟩

/-- A regular (individual) booking-form submission. -/
def c3Input : SubmitInput :=
  { slotDate := "2026-01-16", slotTime := "14:00", isClassBooking := false,
    email := "a@x.com", phone := "0123", name := "Alice",
    className := "", hostName := "", maxInput := none, clientCode := "4321" }

/-- The document that submission writes to the bookings collection. -/
def c3Doc : Booking :=
  { date := "2026-01-16", time := "14:00", name := some "Alice",
    isClass := some false }

/-- C3 fails on the code: the booking form writes its document with no
`status` field at all — neither `pending` nor a confirmed record — so the
on-create handler's pending check skips it: the handler leaves the store
unchanged and performs no effect. -/
theorem form_booking_written_without_status :
    mkFirestoreBooking c3Input = some c3Doc
    ∧ c3Doc.status = none
    ∧ c3Doc.status ≠ some Status.pending
    ∧ onBookingCreated [("F1", c3Doc)] "F1" { id := "cF", accessCode := "8888" } =
        ([("F1", c3Doc)], []) := by
  decide

/-- C3, amended to what the code does: every document the booking form
writes (individual or class) carries no `status` field, so the on-create
handler — which only processes `status = pending` records — skips every
form-created booking, leaving it to the client-side manual/local-only flow. -/
theorem form_booking_skipped_by_create_handler
    (inp : SubmitInput) (d : Booking) (store : Store) (id : String)
    (fresh : Cred)
    (hmk : mkFirestoreBooking inp = some d) :
    d.status = none
    ∧ (getDoc store id = some d →
        onBookingCreated store id fresh = (store, [])) := by
  have hst : d.status = none := by
    unfold mkFirestoreBooking at hmk
    by_cases hc : inp.isClassBooking
    · rw [if_pos hc] at hmk
      by_cases hv : inp.className = "" ∨ inp.hostName = ""
      · rw [if_pos hv] at hmk
        exact absurd hmk (by simp)
      · rw [if_neg hv] at hmk
        have hd := Option.some.inj hmk
        rw [← hd]
    · rw [if_neg hc] at hmk
      by_cases hv : inp.name = ""
      · rw [if_pos hv] at hmk
        exact absurd hmk (by simp)
      · rw [if_neg hv] at hmk
        have hd := Option.some.inj hmk
        rw [← hd]
  refine ⟨hst, ?_⟩
  intro hget
  unfold onBookingCreated
  rw [hget]
  have hne : d.status ≠ some Status.pending := by
    rw [hst]
    simp
  simp [hne]

/-- A class-form submission, showing class documents are skipped too. -/
def c3ClassInput : SubmitInput :=
  { slotDate := "2026-01-17", slotTime := "10:00", isClassBooking := true,
    email := "h@x.com", phone := "", name := "", className := "Prayer 101",
    hostName := "Hana", maxInput := some 5, clientCode := "2468" }

def c3ClassDoc : Booking :=
  { date := "2026-01-17", time := "10:00", isClass := some true,
    className := some "Prayer 101", hostName := some "Hana",
    hostEmail := some "h@x.com", maxParticipants := some 5,
    participants := some ["Hana"], participantCount := some 1 }

/-- Closed instance of the amended C3 theorem at a class submission. -/
theorem form_booking_skipped_by_create_handler_witness :
    c3ClassDoc.status = none
    ∧ onBookingCreated [("G1", c3ClassDoc)] "G1"
        { id := "cG", accessCode := "1357" } = ([("G1", c3ClassDoc)], []) := by
  have h := form_booking_skipped_by_create_handler c3ClassInput c3ClassDoc
    [("G1", c3ClassDoc)] "G1" { id := "cG", accessCode := "1357" } (by decide)
  exact ⟨h.1, h.2 (by decide)⟩

/-- A class-form submission whose max-participants field parses to `-1`:
`parseInt(...) || 8` keeps any non-zero number, including negatives. -/
def c9Input : SubmitInput :=
  { slotDate := "2026-01-16", slotTime := "14:00", isClassBooking := true,
    email := "h@x.com", phone := "", name := "", className := "Yoga",
    hostName := "Host", maxInput := some (-1), clientCode := "1234" }

/-- C9 fails on the code: the class document created from `c9Input` has
`participantCount = 1` but `maxParticipants = -1`, so `participantCount`
exceeds `maxParticipants` already at creation — the form's
`parseInt(...) || 8` accepts any non-zero entered number unchecked. -/
theorem class_creation_can_exceed_negative_max :
    (mkFirestoreBooking c9Input).map Booking.participantCount = some (some 1)
    ∧ (mkFirestoreBooking c9Input).map Booking.maxParticipants =
        some (some (-1))
    ∧ ((-1 : Int) < 1) := by
  decide

/-- C9, amended: joining a full class (`participantCount >= maxParticipants`)
fails with "Class is full" leaving the store untouched; joining below
capacity appends exactly the one name and stores a count one higher, still
at most `maxParticipants`; a created class has `participantCount = 1` with
the host as sole participant, which respects the cap whenever the entered
max-participants value is at least 1 (the default is 8; a non-zero negative
entry is stored unchecked, violating the cap at creation). -/
theorem class_capacity_enforced
    (store : Store) (id nm : String) (b : Booking) (l : List String) (m : Int)
    (hget : getDoc store id = some b)
    (hclass : b.isClass = some true)
    (hnm : nm ≠ "")
    (hid : id ≠ "") :
    (jsGe b.participantCount b.maxParticipants = true →
      handleJoinClass store id nm = Except.error "Class is full")
    ∧ (b.participants = some l →
       b.participantCount = some (l.length : Int) →
       b.maxParticipants = some m →
       jsGe b.participantCount b.maxParticipants = false →
       handleJoinClass store id nm =
         Except.ok (setDoc store id
           { b with
             participants := some (l ++ [nm]),
             participantCount := some ((l ++ [nm]).length : Int) })
       ∧ ((l ++ [nm]).length : Int) = (l.length : Int) + 1
       ∧ ((l.length : Int) + 1 ≤ m))
    ∧ (∀ inp : SubmitInput, ∀ d : Booking, inp.isClassBooking = true →
        mkFirestoreBooking inp = some d →
        d.participants = some [inp.hostName]
        ∧ d.participantCount = some 1
        ∧ d.maxParticipants = some (jsOrIntDefault inp.maxInput 8)
        ∧ (1 ≤ jsOrIntDefault inp.maxInput 8 →
            ∀ c : Int, d.participantCount = some c →
              c ≤ jsOrIntDefault inp.maxInput 8)) := by
  refine ⟨?_, ?_, ?_⟩
  · intro hfull
    unfold handleJoinClass
    rw [if_neg (by simp [hnm, hid]), hget]
    simp [hclass, hfull]
  · intro hl hcount hmax hbelow
    refine ⟨?_, ?_, ?_⟩
    · unfold handleJoinClass
      rw [if_neg (by simp [hnm, hid]), hget]
      simp [hclass, hbelow, hl]
    · simp
    · rw [hcount, hmax] at hbelow
      unfold jsGe at hbelow
      simp only [decide_eq_false_iff_not, not_le] at hbelow
      omega
  · intro inp d hc hmk
    unfold mkFirestoreBooking at hmk
    rw [if_pos (by simp [hc])] at hmk
    by_cases hv : inp.className = "" ∨ inp.hostName = ""
    · rw [if_pos hv] at hmk
      exact absurd hmk (by simp)
    · rw [if_neg hv] at hmk
      have hd := Option.some.inj hmk
      subst hd
      refine ⟨rfl, rfl, rfl, ?_⟩
      intro hone c hcn
      have : c = 1 := by
        simpa using hcn.symm
      omega

/-- A class at capacity (2 of 2) and a class with room (1 of 2). -/
def c9Full : Booking :=
  { date := "2026-01-16", time := "14:00", isClass := some true,
    className := some "Yoga", hostName := some "Host",
    maxParticipants := some 2, participants := some ["Host", "Jo"],
    participantCount := some 2 }

def c9Open : Booking :=
  { c9Full with participants := some ["Host"], participantCount := some 1 }

/-- Closed instance of the amended C9 theorem: joining the full class fails
with "Class is full"; joining the open class appends Pat and stores count 2. -/
theorem class_capacity_enforced_witness :
    handleJoinClass [("K1", c9Full)] "K1" "Pat" = Except.error "Class is full"
    ∧ handleJoinClass [("K2", c9Open)] "K2" "Pat" =
        Except.ok (setDoc [("K2", c9Open)] "K2"
          { c9Open with
            participants := some ["Host", "Pat"],
            participantCount := some 2 }) := by
  have h1 := (class_capacity_enforced [("K1", c9Full)] "K1" "Pat" c9Full
    ["Host", "Jo"] 2 (by decide) (by decide) (by decide) (by decide)).1
    (by decide)
  have h2 := ((class_capacity_enforced [("K2", c9Open)] "K2" "Pat" c9Open
    ["Host"] 2 (by decide) (by decide) (by decide) (by decide)).2.1
    (by decide) (by decide) (by decide) (by decide)).1
  exact ⟨h1, by simpa using h2⟩

/-- An individual booking-form submission used to instantiate C10. -/
def c10Input : SubmitInput :=
  { slotDate := "2026-01-20", slotTime := "09:00", isClassBooking := false,
    email := "z@x.com", phone := "0777", name := "Zoe", className := "",
    hostName := "", maxInput := none, clientCode := "5566" }

def c10Doc : Booking :=
  { date := "2026-01-20", time := "09:00", name := some "Zoe",
    isClass := some false }

/-- C10. For an individual booking submitted while the store is available,
the document written holds exactly the fields `date`, `time`, `name`, and
`isClass = false` — the entered email and phone and the locally generated
access code stay client-side — and the code shown to the user is the
client's own `generateAccessCode()` value (`clientCode`), not anything
written by the create handler, which skips the status-less document
entirely and writes no credential access code into it. -/
theorem form_booking_minimal_fields
    (inp : SubmitInput) (d : Booking)
    (hind : inp.isClassBooking = false)
    (hmk : mkFirestoreBooking inp = some d) :
    d = { date := inp.slotDate, time := inp.slotTime,
          name := some inp.name, isClass := some false }
    ∧ d.email = none ∧ d.phone = none ∧ d.accessCode = none ∧ d.status = none
    ∧ displayedAccessCode inp = inp.clientCode
    ∧ (∀ store : Store, ∀ id : String, ∀ fresh : Cred,
        getDoc store id = some d →
        onBookingCreated store id fresh = (store, [])) := by
  have hd : d = { date := inp.slotDate, time := inp.slotTime,
                  name := some inp.name, isClass := some false } := by
    unfold mkFirestoreBooking at hmk
    rw [if_neg (by simp [hind])] at hmk
    by_cases hv : inp.name = ""
    · rw [if_pos hv] at hmk
      exact absurd hmk (by simp)
    · rw [if_neg hv] at hmk
      exact (Option.some.inj hmk).symm
  refine ⟨hd, ?_, ?_, ?_, ?_, rfl, ?_⟩
  · rw [hd]
  · rw [hd]
  · rw [hd]
  · rw [hd]
  · intro store id fresh hget
    unfold onBookingCreated
    rw [hget]
    have hne : d.status ≠ some Status.pending := by
      rw [hd]
      simp
    simp [hne]

/-- Closed instance of the C10 theorem. -/
theorem form_booking_minimal_fields_witness :
    mkFirestoreBooking c10Input = some c10Doc
    ∧ c10Doc.email = none ∧ c10Doc.phone = none ∧ c10Doc.accessCode = none
    ∧ displayedAccessCode c10Input = "5566"
    ∧ onBookingCreated [("H1", c10Doc)] "H1"
        { id := "cH", accessCode := "9090" } = ([("H1", c10Doc)], []) := by
  have h := form_booking_minimal_fields c10Input c10Doc rfl (by decide)
  obtain ⟨h1, h2, h3, h4, h5, h6, h7⟩ := h
  exact ⟨by decide, h2, h3, h4, h6, h7 [("H1", c10Doc)] "H1"
    { id := "cH", accessCode := "9090" } (by decide)⟩
